import Mathlib

/-!
Shallow embedding of the process supervision and cancellable task-execution
subsystem of the Uverse backend: the worker pool (`backend/workers/pool.py`)
and the embedded database supervisor (`backend/core/postgres_manager.py`).

Filesystem artifacts (cancellation marker files, the database PID file, the
data directory) and the OS process table are modelled as explicit state;
outcomes of external OS and subprocess calls are supplied by an environment
record.  `json.loads` is modelled abstractly: a captured output line either
fails to parse, strips to the empty string, or yields a JSON value.
-/

namespace Uverse

abbrev TaskId := String
abbrev Pid := Nat

/-- State touched by the worker pool: the `_running_processes` registry
(an id-to-Popen map guarded by `_process_lock`), the set of task ids whose
cancellation marker file currently exists, the set of live child pids
(abstracting the OS process table), and the log lines forwarded by the
stderr interceptor callback. -/
structure PoolState where
  registry : List (TaskId × Pid)
  cancelSignals : List TaskId
  alive : List Pid
  logs : List (String × String)
deriving Repr, DecidableEq

/-- `_set_cancel_signal`: touch the marker file for the task id. -/
def set_cancel_signal (id : TaskId) (s : PoolState) : PoolState :=
  if s.cancelSignals.contains id then s
  else { s with cancelSignals := id :: s.cancelSignals }

/-- `_clear_cancel_signal`: unlink the marker file if it exists. -/
def clear_cancel_signal (id : TaskId) (s : PoolState) : PoolState :=
  { s with cancelSignals := s.cancelSignals.filter (fun x => x != id) }

/-- Existence check of the cancellation marker file
(`_get_cancel_signal_path(task_id).exists()`). -/
def cancel_signal_exists (id : TaskId) (s : PoolState) : Bool :=
  s.cancelSignals.contains id

/-- Environment for OS-level kill outcomes: whether the forced kill of a
given pid's process tree goes through without an OS exception. -/
structure OsEnv where
  killTreeOk : Pid → Bool

/-- `_kill_process_tree`: if the process has already exited
(`process.poll() is not None`) return `true` without side effects;
otherwise signal the whole process group.  The exotic OS-exception paths
are collapsed into a single failure outcome that leaves the process
table unchanged and returns `false`. -/
def kill_process_tree (env : OsEnv) (pid : Pid) (s : PoolState) :
    PoolState × Bool :=
  if ¬ s.alive.contains pid then (s, true)
  else if env.killTreeOk pid then
    ({ s with alive := s.alive.filter (fun p => p != pid) }, true)
  else (s, false)

/-- `stop_parse_process`: always set the cancellation marker; then, holding
the registry lock, kill the registered process tree if any and return the
kill outcome, deliberately leaving the registry entry in place (the comment
in the source defers removal to `parse_pdf_in_process`'s cleanup); when no
process is registered under the id, return `false`. -/
def stop_parse_process (env : OsEnv) (id : TaskId) (s : PoolState) :
    PoolState × Bool :=
  let s1 := set_cancel_signal id s
  match s1.registry.lookup id with
  | some pid => kill_process_tree env pid s1
  | none => (s1, false)

/-- JSON values, the shape `json.loads` can return.  The supervisor only
inspects whether a value is an object and whether it has a given key; the
value itself is carried verbatim into the result. -/
inductive Json where
  | null
  | bool (b : Bool)
  | num (n : Int)
  | str (s : String)
  | arr (elems : List Json)
  | obj (fields : List (String × Json))
deriving Repr

/-- Python `isinstance(result, dict)`. -/
def Json.isDict : Json → Bool
  | .obj _ => true
  | _ => false

/-- Python `k in result` on a dict. -/
def Json.hasKey (k : String) : Json → Bool
  | .obj fs => fs.any (fun p => p.1 == k)
  | _ => false

/-- Python `result.get(k, dflt)` without the default: the value at the key
when present. -/
def Json.getKey (k : String) : Json → Option Json
  | .obj fs => fs.lookup k
  | _ => none

/-- One captured output line, at the granularity the supervisor observes it:
it either strips to the empty string, fails `json.loads`, or parses to a
JSON value. -/
inductive RawLine where
  | blank
  | junk
  | jsonLine (v : Json)
deriving Repr

/-- Result extraction (exit code 0): scan the captured stdout lines from the
end backward, skip blank lines and lines that do not parse, and return the
first parsed dict containing the key `success`. -/
def extract_success_record (lines : List RawLine) : Option Json :=
  lines.reverse.findSome? fun l =>
    match l with
    | .jsonLine v => if v.isDict && v.hasKey "success" then some v else none
    | _ => none

/-- Error extraction (non-zero exit): scan the captured stdout lines from the
end backward and return the value at key `error` of the first parsed dict
that has that key. -/
def extract_error_value (lines : List RawLine) : Option Json :=
  lines.reverse.findSome? fun l =>
    match l with
    | .jsonLine v => if v.isDict && v.hasKey "error" then v.getKey "error" else none
    | _ => none

/-- The default opaque failure message built for a non-zero exit code
(the f-string at line 613 of pool.py). -/
def default_error_msg (rc : Int) : String :=
  "解析进程失败 (exit code: " ++ toString rc ++ ")"

/-- The dictionaries `parse_pdf_in_process` can return, one constructor per
return site. -/
inductive ExecResult where
  /-- packaged mode, the worker executable vanished before spawn. -/
  | workerMissing
  /-- dev mode, the wrapper script does not exist. -/
  | wrapperMissing
  /-- `subprocess.Popen` raised. -/
  | spawnFailed
  /-- a cancelled result: success False, cancelled True, with a message. -/
  | cancelledResult (msg : String)
  /-- non-zero exit, opaque failure with the default exit-code message. -/
  | parseFailedMsg (msg : String)
  /-- non-zero exit, error value extracted from the child's stdout. -/
  | parseFailedVal (v : Json)
  /-- exit 0: the child's own terminal record, returned verbatim. -/
  | childRecord (v : Json)
  /-- exit 0 but no stdout line parsed to a dict with key `success`. -/
  | unparsableOutput
  /-- a generic exception in the supervision body was recovered. -/
  | bodyException
deriving Repr

/-- Whether a result is the cancelled terminal state. -/
def ExecResult.isCancelled : ExecResult → Bool
  | .cancelledResult _ => true
  | _ => false

/-- Output pipes of the child process. -/
inductive PipeStream where
  | stdout
  | stderr
deriving Repr, DecidableEq

/-- Observable actions of one `parse_pdf_in_process` run, in program order.
`waitExit` and `readStdout` are performed by the waiter thread
(`wait_process`); they are placed in the trace at the point the supervisor
obtains their outcome. -/
inductive Event where
  | clearCancel (id : TaskId)
  | spawn (pid : Pid)
  | register (id : TaskId)
  | startDrain (st : PipeStream)
  | pollIter
  | killTree (pid : Pid)
  | waitExit
  | readStdout
  | unregister (id : TaskId)
  | finalKill (pid : Pid)
deriving Repr, DecidableEq

/-- How the `try` body around the poll loop ends: it runs to completion, the
surrounding asyncio task is cancelled, or some other exception is raised
while polling. -/
inductive BodyOutcome where
  | completes
  | asyncCancelled
  | raises
deriving Repr, DecidableEq

/-- Environment of one `parse_pdf_in_process` call: outcomes of the
filesystem probes, the spawn, the poll loop and the waiter thread.
`inputPathExists` records whether the given `pdf_path` exists; the code
never consults it. -/
structure ExecEnv where
  inputPathExists : Bool
  workerExeFound : Bool
  workerExeExists : Bool
  wrapperExists : Bool
  spawnResult : Option Pid
  bodyOutcome : BodyOutcome
  pollIters : Nat
  cancelSeenInPoll : Bool
  markerRaisedDuringRun : Bool
  cancelFlag : Bool
  returncode : Int
  stdoutLines : List RawLine
  stderrLines : List (String × String)
  os : OsEnv

/-- Final state, returned dictionary and action trace of one run. -/
structure ExecOut where
  state : PoolState
  result : ExecResult
  trace : List Event

/-- Python dict assignment `_running_processes[task_id] = process`:
overwrite any entry under the id. -/
def registry_insert (id : TaskId) (pid : Pid) (r : List (TaskId × Pid)) :
    List (TaskId × Pid) :=
  r.filter (fun p => p.1 != id) ++ [(id, pid)]

/-- The `finally` block of `parse_pdf_in_process`: stop the interceptor,
pop the registry entry, clear the cancellation marker and, if the child is
somehow still alive, issue one final forced tree kill. -/
def cleanup_finally (env : ExecEnv) (id : TaskId) (pid : Pid) (o : ExecOut) :
    ExecOut :=
  let s := { o.state with registry := o.state.registry.filter (fun p => p.1 != id) }
  let s := clear_cancel_signal id s
  if s.alive.contains pid then
    ⟨(kill_process_tree env.os pid s).1, o.result,
     o.trace ++ [.unregister id, .clearCancel id, .finalKill pid]⟩
  else
    ⟨s, o.result, o.trace ++ [.unregister id, .clearCancel id]⟩

/-- The supervision body after a successful spawn: register the process,
start the stderr interceptor thread, start the waiter thread, poll until
exit or cancellation, then extract the result; every exit of the body goes
through `cleanup_finally`. -/
def supervise (env : ExecEnv) (id : TaskId) (pid : Pid) (s : PoolState)
    (tr : List Event) : ExecOut :=
  -- record the process, then drain stderr in a background thread; the
  -- interceptor forwards each line to the log callback
  let s := { s with alive := pid :: s.alive }
  let s := { s with registry := registry_insert id pid s.registry }
  let s := { s with logs := s.logs ++ env.stderrLines }
  let tr := tr ++ [.spawn pid, .register id, .startDrain .stderr]
  -- during the poll region an external `stop_parse_process` may raise the
  -- marker file for this id
  let s := if env.markerRaisedDuringRun then set_cancel_signal id s else s
  let tr := tr ++ List.replicate env.pollIters .pollIter
  match env.bodyOutcome with
  | .asyncCancelled =>
      -- asyncio.CancelledError: kill the tree and return a cancelled result
      let s := (kill_process_tree env.os pid s).1
      cleanup_finally env id pid ⟨s, .cancelledResult "任务已被取消", tr ++ [.killTree pid]⟩
  | .raises =>
      -- any other exception while polling is recovered into a failure dict
      cleanup_finally env id pid ⟨s, .bodyException, tr⟩
  | .completes =>
      if env.cancelSeenInPoll then
        -- a poll iteration observed check_cancelled: kill the tree, collect
        -- the waiter thread's outcome, return cancelled
        let s := (kill_process_tree env.os pid s).1
        cleanup_finally env id pid
          ⟨s, .cancelledResult "任务已被用户取消", tr ++ [.killTree pid, .waitExit, .readStdout]⟩
      else
        -- natural exit observed by poll(); the waiter thread returns the
        -- exit code and then reads the whole of stdout
        let s := { s with alive := s.alive.filter (fun p => p != pid) }
        let tr := tr ++ [.waitExit, .readStdout]
        let res : ExecResult :=
          if env.cancelFlag then .cancelledResult "任务已被用户取消"
          else if cancel_signal_exists id s then .cancelledResult "任务已被用户取消"
          else if env.returncode != 0 then
            if env.returncode < 0 && env.cancelFlag then
              .cancelledResult "任务已被用户取消"
            else
              match extract_error_value env.stdoutLines with
              | some v => .parseFailedVal v
              | none => .parseFailedMsg (default_error_msg env.returncode)
          else
            match extract_success_record env.stdoutLines with
            | some v => .childRecord v
            | none => .unparsableOutput
        cleanup_finally env id pid ⟨s, res, tr⟩

/-- `parse_pdf_in_process`: clear the stale cancellation marker, resolve the
worker executable (packaged mode) or the wrapper script (dev mode), reject
a missing binary synchronously, spawn the child, then supervise it.  The
pre-spawn rejections precede the `try`, so they do not run the cleanup. -/
def parse_pdf_in_process (env : ExecEnv) (id : TaskId) (s0 : PoolState) :
    ExecOut :=
  let s := clear_cancel_signal id s0
  let tr : List Event := [.clearCancel id]
  if env.workerExeFound && !env.workerExeExists then
    ⟨s, .workerMissing, tr⟩
  else if !env.workerExeFound && !env.wrapperExists then
    ⟨s, .wrapperMissing, tr⟩
  else
    match env.spawnResult with
    | none => ⟨s, .spawnFailed, tr⟩
    | some pid => supervise env id pid s tr

/-! ### Embedded database supervisor (`backend/core/postgres_manager.py`) -/

/-- Filesystem state the PostgresManager reads and writes: the persisted PID
file (`postgres.pid`), the data directory and its `PG_VERSION` marker, the
`pg_hba.conf` written at initialization, the number of times
`postgresql.conf` has been rewritten, and the number of timestamped
`data_backup_*` directories created. -/
structure PgState where
  pidFileExists : Bool
  dataDirExists : Bool
  pgVersionFileExists : Bool
  hbaConfWritten : Bool
  confRewrites : Nat
  backups : Nat
deriving Repr, DecidableEq

/-- Outcome of the `pg_ctl stop -m fast` subprocess call. -/
inductive StopCmdOutcome where
  | exitZero
  | saysNotRunning
  | otherError
  | timedOut
  | raisesExc
deriving Repr, DecidableEq

/-- Environment of the PostgresManager: outcomes of the external probes and
subprocess calls it performs. -/
structure PgEnv where
  installed : Bool
  isWindows : Bool
  dataDirWritable : Bool
  pidProbeAlive : Bool
  pgCtlSaysRunning : Bool
  initdbOk : Bool
  pgCtlSpawnOk : Bool
  firstWaitReady : Bool
  stopCmdOutcome : StopCmdOutcome
  backupMoveOk : Bool
  rmtreeOk : Bool
  retryCmdOk : Bool
  retryWaitReady : Bool
  createDbOk : Bool

/-- Observable actions of the PostgresManager. -/
inductive PgEvent where
  | initDbRun
  | writeHba
  | writeConf
  | pgCtlStart
  | pgCtlStop
  | forceStop
  | backupDataDir
  | removeDataDir
  | waitReady (timeoutSecs : Nat)
  | repairAttempt
  | createDb
  | savePid
deriving Repr, DecidableEq

/-- `is_initialized`: the data directory exists and holds `PG_VERSION`. -/
def pg_is_initialized (s : PgState) : Bool :=
  s.dataDirExists && s.pgVersionFileExists

/-- `is_running`: if the PID file exists, probe the recorded process
(signal 0); a failed probe and an absent or unreadable PID file fall back
to `pg_ctl status`. -/
def pg_is_running (env : PgEnv) (s : PgState) : Bool :=
  if s.pidFileExists then
    if env.pidProbeAlive then true else env.pgCtlSaysRunning
  else env.pgCtlSaysRunning

/-- `init_database`: fail fast if not installed; no-op when already
initialized; otherwise create the data directory, run `initdb` (which
populates the cluster, in particular `PG_VERSION`) and write
`pg_hba.conf`.  On Windows the directory is first probed for
writability. -/
def pg_init_database (env : PgEnv) (s : PgState) :
    PgState × Bool × List PgEvent :=
  if ¬ env.installed then (s, false, [])
  else if pg_is_initialized s then (s, true, [])
  else
    let s := { s with dataDirExists := true }
    if env.isWindows && !env.dataDirWritable then (s, false, [])
    else if ¬ env.initdbOk then (s, false, [.initDbRun])
    else
      ({ s with pgVersionFileExists := true, hbaConfWritten := true },
       true, [.initDbRun, .writeHba])

/-- `_setup_postgresql_conf`: rewrite `postgresql.conf` inside the data
directory with the configured port and listen addresses. -/
def pg_setup_conf (s : PgState) : PgState :=
  { s with confRewrites := s.confRewrites + 1 }

/-- `stop()`: a no-op (plus removal of a residual PID file) when not
running; otherwise `pg_ctl stop -m fast`, falling back to a forced kill on
a non-zero exit, a timeout or an exception, and in every case the PID file
is unlinked before returning. -/
def pg_stop (env : PgEnv) (s : PgState) : PgState × List PgEvent :=
  if ¬ pg_is_running env s then
    ({ s with pidFileExists := false }, [])
  else
    let tr : List PgEvent :=
      match env.stopCmdOutcome with
      | .exitZero => [.pgCtlStop]
      | .saysNotRunning => [.pgCtlStop]
      | .otherError => [.pgCtlStop, .forceStop]
      | .timedOut => [.pgCtlStop, .forceStop]
      | .raisesExc => [.pgCtlStop, .forceStop]
    ({ s with pidFileExists := false }, tr)

/-- `_auto_reset_data_dir`: when the data directory exists, move it aside
as a timestamped backup (falling back to deletion when the move fails),
then reinitialize; when even the deletion fails, report failure. -/
def pg_auto_reset_data_dir (env : PgEnv) (s : PgState) :
    PgState × Bool × List PgEvent :=
  if ¬ s.dataDirExists then pg_init_database env s
  else if env.backupMoveOk then
    let s := { s with dataDirExists := false, pgVersionFileExists := false,
                      hbaConfWritten := false, backups := s.backups + 1 }
    let r := pg_init_database env s
    (r.1, r.2.1, .backupDataDir :: r.2.2)
  else if env.rmtreeOk then
    let s := { s with dataDirExists := false, pgVersionFileExists := false,
                      hbaConfWritten := false }
    let r := pg_init_database env s
    (r.1, r.2.1, .removeDataDir :: r.2.2)
  else (s, false, [])

/-- `_retry_start`: rewrite the config, run `pg_ctl start` once more, wait
for readiness with the shorter 45s timeout, create the application
database and persist the PID; any failure is surfaced, never repaired
again. -/
def pg_retry_start (env : PgEnv) (s : PgState) :
    PgState × Bool × List PgEvent :=
  let s := pg_setup_conf s
  if ¬ env.retryCmdOk then (s, false, [.writeConf, .pgCtlStart])
  else if ¬ env.retryWaitReady then
    (s, false, [.writeConf, .pgCtlStart, .waitReady 45])
  else if ¬ env.createDbOk then
    (s, false, [.writeConf, .pgCtlStart, .waitReady 45, .createDb])
  else
    ({ s with pidFileExists := true }, true,
     [.writeConf, .pgCtlStart, .waitReady 45, .createDb, .savePid])

/-- `start()`: verify installed, return true if already running, initialize
if needed, rewrite the config, launch `pg_ctl start`, wait for readiness
up to 60s; on readiness failure run the auto-repair (stop, back the data
directory aside, reinitialize) and retry the start exactly once. -/
def pg_start (env : PgEnv) (s : PgState) : PgState × Bool × List PgEvent :=
  if ¬ env.installed then (s, false, [])
  else if pg_is_running env s then (s, true, [])
  else
    let ini :=
      if pg_is_initialized s then (s, true, ([] : List PgEvent))
      else pg_init_database env s
    let s := ini.1
    let tr := ini.2.2
    if ¬ ini.2.1 then (s, false, tr)
    else
      let s := pg_setup_conf s
      let tr := tr ++ [.writeConf]
      if ¬ env.pgCtlSpawnOk then (s, false, tr)
      else
        let tr := tr ++ [.pgCtlStart]
        if env.firstWaitReady then
          let tr := tr ++ [.waitReady 60]
          if ¬ env.createDbOk then (s, false, tr ++ [.createDb])
          else
            ({ s with pidFileExists := true }, true,
             tr ++ [.createDb, .savePid])
        else
          let tr := tr ++ [.waitReady 60, .repairAttempt]
          let stp := pg_stop env s
          let rst := pg_auto_reset_data_dir env stp.1
          if rst.2.1 then
            let rty := pg_retry_start env rst.1
            (rty.1, rty.2.1, tr ++ stp.2 ++ rst.2.2 ++ rty.2.2)
          else (rst.1, false, tr ++ stp.2 ++ rst.2.2)

/-! ### Helper lemmas -/

@[simp] theorem set_cancel_signal_registry (id : TaskId) (s : PoolState) :
    (set_cancel_signal id s).registry = s.registry := by
  unfold set_cancel_signal; split <;> rfl

@[simp] theorem set_cancel_signal_alive (id : TaskId) (s : PoolState) :
    (set_cancel_signal id s).alive = s.alive := by
  unfold set_cancel_signal; split <;> rfl

theorem mem_set_cancel_signal_self (id : TaskId) (s : PoolState) :
    id ∈ (set_cancel_signal id s).cancelSignals := by
  unfold set_cancel_signal
  split
  · next h => simpa using h
  · exact List.mem_cons_self _ _

@[simp] theorem cancel_signal_exists_set_self (id : TaskId) (s : PoolState) :
    cancel_signal_exists id (set_cancel_signal id s) = true := by
  simpa [cancel_signal_exists] using mem_set_cancel_signal_self id s

@[simp] theorem kill_process_tree_registry (env : OsEnv) (pid : Pid)
    (s : PoolState) : (kill_process_tree env pid s).1.registry = s.registry := by
  unfold kill_process_tree; split <;> [rfl; (split <;> rfl)]

@[simp] theorem kill_process_tree_cancelSignals (env : OsEnv) (pid : Pid)
    (s : PoolState) :
    (kill_process_tree env pid s).1.cancelSignals = s.cancelSignals := by
  unfold kill_process_tree; split <;> [rfl; (split <;> rfl)]

/-- C10: `stop_parse_process` always raises the durable cancellation marker,
even when no process is registered under the id; when one is registered it
kills that process tree and returns the kill outcome while leaving the
registry entry in place; when none is registered it returns `false` and
leaves the registry unchanged. -/
theorem C10_stop_parse_process_contract (env : OsEnv) (id : TaskId)
    (s : PoolState) :
    cancel_signal_exists id (stop_parse_process env id s).1 = true ∧
    (stop_parse_process env id s).1.registry = s.registry ∧
    (s.registry.lookup id = none →
      stop_parse_process env id s = (set_cancel_signal id s, false)) ∧
    (∀ pid, s.registry.lookup id = some pid →
      stop_parse_process env id s
        = kill_process_tree env pid (set_cancel_signal id s)) := by
  unfold stop_parse_process
  simp only [set_cancel_signal_registry]
  cases h : List.lookup id s.registry <;>
    simp [h, cancel_signal_exists, kill_process_tree_cancelSignals,
          kill_process_tree_registry, set_cancel_signal_registry,
          mem_set_cancel_signal_self]

/-- Closed instance of the C10 contract at concrete inputs, exercising both
the registered and the unregistered branch. -/
theorem C10_stop_parse_process_contract_witness :
    stop_parse_process ⟨fun _ => true⟩ "t2"
        ⟨[("t1", 5)], [], [5], []⟩
      = (set_cancel_signal "t2" ⟨[("t1", 5)], [], [5], []⟩, false) ∧
    stop_parse_process ⟨fun _ => true⟩ "t1"
        ⟨[("t1", 5)], [], [5], []⟩
      = kill_process_tree ⟨fun _ => true⟩ 5
          (set_cancel_signal "t1" ⟨[("t1", 5)], [], [5], []⟩) := by
  refine ⟨?_, ?_⟩
  · exact (C10_stop_parse_process_contract ⟨fun _ => true⟩ "t2"
      ⟨[("t1", 5)], [], [5], []⟩).2.2.1 (by decide)
  · exact (C10_stop_parse_process_contract ⟨fun _ => true⟩ "t1"
      ⟨[("t1", 5)], [], [5], []⟩).2.2.2 5 (by decide)

theorem pg_is_running_no_pid (env : PgEnv) (s : PgState)
    (hp : s.pidFileExists = false) :
    pg_is_running env s = env.pgCtlSaysRunning := by
  unfold pg_is_running; simp [hp]

theorem pg_stop_not_running (env : PgEnv) (s : PgState)
    (h : pg_is_running env s = false) :
    pg_stop env s = ({ s with pidFileExists := false }, []) := by
  unfold pg_stop; simp [h]

/-- C8: `stop()` on the database service always leaves the PID file removed
when it returns, on every path; when the service is not running it is a
no-op apart from removing a residual PID file, it still reports the
service as not running afterwards, and repeating it changes nothing
further. -/
theorem C8_stop_contract (env : PgEnv) (s : PgState) :
    (pg_stop env s).1.pidFileExists = false ∧
    (pg_is_running env s = false →
      (pg_stop env s).1 = { s with pidFileExists := false } ∧
      pg_is_running env (pg_stop env s).1 = false ∧
      (pg_stop env (pg_stop env s).1).1 = (pg_stop env s).1) := by
  have hctl : pg_is_running env s = false → env.pgCtlSaysRunning = false := by
    unfold pg_is_running
    cases hp : s.pidFileExists <;> cases ha : env.pidProbeAlive <;> simp
  constructor
  · unfold pg_stop; split <;> rfl
  · intro h
    have hc := hctl h
    have h1 := pg_stop_not_running env s h
    have h2 : pg_is_running env (pg_stop env s).1 = false := by
      rw [h1]
      rw [pg_is_running_no_pid env _ rfl]
      exact hc
    have h3 := pg_stop_not_running env _ h2
    refine ⟨by rw [h1], h2, ?_⟩
    rw [h3, h1]

/-- The PostgresManager environment of a stopped service: the PID probe
fails and `pg_ctl status` reports no server. -/
def pgEnvStopped : PgEnv :=
  { installed := true, isWindows := false, dataDirWritable := true,
    pidProbeAlive := false, pgCtlSaysRunning := false, initdbOk := true,
    pgCtlSpawnOk := true, firstWaitReady := true,
    stopCmdOutcome := .exitZero, backupMoveOk := true, rmtreeOk := true,
    retryCmdOk := true, retryWaitReady := true, createDbOk := true }

/-- An initialized state with a residual PID file on disk. -/
def pgStateWithPid : PgState :=
  { pidFileExists := true, dataDirExists := true,
    pgVersionFileExists := true, hbaConfWritten := true,
    confRewrites := 0, backups := 0 }

/-- Closed instance of the C8 contract: a stopped service with a stale PID
file, stopped twice in a row. -/
theorem C8_stop_contract_witness :
    pg_is_running pgEnvStopped pgStateWithPid = false ∧
    (pg_stop pgEnvStopped pgStateWithPid).1
      = { pgStateWithPid with pidFileExists := false } ∧
    (pg_stop pgEnvStopped (pg_stop pgEnvStopped pgStateWithPid).1).1
      = (pg_stop pgEnvStopped pgStateWithPid).1 := by
  refine ⟨by decide, ?_, ?_⟩
  · exact ((C8_stop_contract pgEnvStopped pgStateWithPid).2 (by decide)).1
  · exact ((C8_stop_contract pgEnvStopped pgStateWithPid).2 (by decide)).2.2

/-- C9 (amended): when the executables are installed and the service is
already running, `start()` returns `true` immediately, with the state
untouched and no initialization, configuration write or data-directory
action performed. -/
theorem C9_start_when_running (env : PgEnv) (s : PgState)
    (hinst : env.installed = true) (hrun : pg_is_running env s = true) :
    pg_start env s = (s, true, []) := by
  unfold pg_start
  simp [hinst, hrun]

/-- A running service whose `pg_ctl`/`initdb` executables are missing. -/
def pgEnvRunningNotInstalled : PgEnv :=
  { pgEnvStopped with installed := false, pidProbeAlive := true,
                      pgCtlSaysRunning := true }

/-- C9 counterexample: the claim promises `start()` returns success for
every call made while the service is running, but when the executables are
missing the installation check fails first and `start()` returns `false`
even though the service is running. -/
theorem C9_counterexample :
    pg_is_running pgEnvRunningNotInstalled pgStateWithPid = true ∧
    (pg_start pgEnvRunningNotInstalled pgStateWithPid).2.1 = false := by
  decide

/-- A running service with its executables installed. -/
def pgEnvRunning : PgEnv :=
  { pgEnvStopped with pidProbeAlive := true, pgCtlSaysRunning := true }

/-- Closed instance of the amended C9 at a concrete running state. -/
theorem C9_start_when_running_witness :
    pg_start pgEnvRunning pgStateWithPid = (pgStateWithPid, true, []) :=
  C9_start_when_running pgEnvRunning pgStateWithPid (by decide) (by decide)

/-- Number of auto-repair attempts recorded in a trace. -/
def countRepairs : List PgEvent → Nat
  | [] => 0
  | .repairAttempt :: tr => countRepairs tr + 1
  | _ :: tr => countRepairs tr

theorem countRepairs_append (a b : List PgEvent) :
    countRepairs (a ++ b) = countRepairs a + countRepairs b := by
  induction a with
  | nil => simp [countRepairs]
  | cons x t ih => cases x <;> (simp [countRepairs, ih]; try omega)

theorem pg_init_database_no_repair (env : PgEnv) (s : PgState) :
    countRepairs (pg_init_database env s).2.2 = 0 := by
  unfold pg_init_database
  repeat' split
  all_goals rfl

theorem pg_stop_no_repair (env : PgEnv) (s : PgState) :
    countRepairs (pg_stop env s).2 = 0 := by
  unfold pg_stop
  repeat' split
  all_goals rfl

theorem pg_auto_reset_no_repair (env : PgEnv) (s : PgState) :
    countRepairs (pg_auto_reset_data_dir env s).2.2 = 0 := by
  unfold pg_auto_reset_data_dir
  split
  · exact pg_init_database_no_repair env s
  · split
    · simp [countRepairs, pg_init_database_no_repair]
    · split
      · simp [countRepairs, pg_init_database_no_repair]
      · rfl

theorem pg_retry_start_no_repair (env : PgEnv) (s : PgState) :
    countRepairs (pg_retry_start env s).2.2 = 0 := by
  unfold pg_retry_start
  repeat' split
  all_goals rfl

theorem pg_retry_start_fails_on_timeout (env : PgEnv) (s : PgState)
    (h : env.retryWaitReady = false) :
    (pg_retry_start env s).2.1 = false := by
  unfold pg_retry_start
  split
  · rfl
  · simp [h]

/-- C5: on a readiness timeout `start()` performs the auto-repair sequence
exactly once and never a second time within the same call: every `start()`
emits at most one repair attempt; when the first readiness wait fails (on
an installed, not-running, initialized instance) exactly one repair is
attempted; and if the single retry also times out waiting for readiness,
`start()` reports failure instead of repairing again. -/
theorem C5_auto_repair_once (env : PgEnv) (s : PgState) :
    countRepairs (pg_start env s).2.2 ≤ 1 ∧
    (env.installed = true → pg_is_running env s = false →
     pg_is_initialized s = true → env.pgCtlSpawnOk = true →
     env.firstWaitReady = false →
       countRepairs (pg_start env s).2.2 = 1 ∧
       (env.retryWaitReady = false → (pg_start env s).2.1 = false)) := by
  constructor
  · unfold pg_start
    repeat' split
    all_goals
      simp [countRepairs, countRepairs_append, pg_init_database_no_repair,
        pg_stop_no_repair, pg_auto_reset_no_repair, pg_retry_start_no_repair]
    all_goals repeat' split
    all_goals
      simp [countRepairs, countRepairs_append, pg_init_database_no_repair,
        pg_stop_no_repair, pg_auto_reset_no_repair, pg_retry_start_no_repair]
  · intro hinst hrun hinit hspawn hwait
    constructor
    · unfold pg_start
      simp [hinst, hrun, hinit, hspawn, hwait]
      split <;>
        simp [countRepairs, countRepairs_append, pg_stop_no_repair,
          pg_auto_reset_no_repair, pg_retry_start_no_repair]
    · intro hretry
      unfold pg_start
      simp [hinst, hrun, hinit, hspawn, hwait]
      split
      · exact pg_retry_start_fails_on_timeout env _ hretry
      · rfl

/-- The environment of a corrupted instance: both readiness waits, the
initial one and the post-repair one, time out. -/
def pgEnvRepairLoop : PgEnv :=
  { pgEnvStopped with firstWaitReady := false, retryWaitReady := false }

/-- An initialized, not-running instance without a PID file. -/
def pgStateInitialized : PgState :=
  { pidFileExists := false, dataDirExists := true, pgVersionFileExists := true,
    hbaConfWritten := true, confRewrites := 0, backups := 0 }

/-- Closed instance of C5: with both readiness waits timing out, `start()`
performs exactly one repair attempt and returns failure. -/
theorem C5_auto_repair_once_witness :
    countRepairs (pg_start pgEnvRepairLoop pgStateInitialized).2.2 = 1 ∧
    (pg_start pgEnvRepairLoop pgStateInitialized).2.1 = false := by
  have h := (C5_auto_repair_once pgEnvRepairLoop pgStateInitialized).2
    (by decide) (by decide) (by decide) (by decide) (by decide)
  exact ⟨h.1, h.2 (by decide)⟩

/-! ### Worker-pool lemmas -/

@[simp] theorem clear_cancel_signal_registry (id : TaskId) (s : PoolState) :
    (clear_cancel_signal id s).registry = s.registry := rfl

@[simp] theorem clear_cancel_signal_alive (id : TaskId) (s : PoolState) :
    (clear_cancel_signal id s).alive = s.alive := rfl

@[simp] theorem cancel_signal_exists_clear_self (id : TaskId) (s : PoolState) :
    cancel_signal_exists id (clear_cancel_signal id s) = false := by
  simp [cancel_signal_exists, clear_cancel_signal, List.mem_filter]

@[simp] theorem cleanup_finally_result (env : ExecEnv) (id : TaskId)
    (pid : Pid) (o : ExecOut) :
    (cleanup_finally env id pid o).result = o.result := by
  unfold cleanup_finally; dsimp only; split <;> rfl

theorem cleanup_finally_trace (env : ExecEnv) (id : TaskId) (pid : Pid)
    (o : ExecOut) :
    ∃ suffix, (cleanup_finally env id pid o).trace = o.trace ++ suffix := by
  unfold cleanup_finally
  dsimp only
  split
  · exact ⟨_, rfl⟩
  · exact ⟨_, rfl⟩

theorem cleanup_finally_registry (env : ExecEnv) (id : TaskId) (pid : Pid)
    (o : ExecOut) :
    ∀ q, (id, q) ∉ (cleanup_finally env id pid o).state.registry := by
  intro q
  unfold cleanup_finally
  dsimp only
  split
  · simp [kill_process_tree_registry, clear_cancel_signal, List.mem_filter]
  · simp [clear_cancel_signal, List.mem_filter]

theorem cleanup_finally_no_marker (env : ExecEnv) (id : TaskId) (pid : Pid)
    (o : ExecOut) :
    cancel_signal_exists id (cleanup_finally env id pid o).state = false := by
  unfold cleanup_finally
  dsimp only
  split
  · simp [cancel_signal_exists, kill_process_tree_cancelSignals,
      clear_cancel_signal, List.mem_filter]
  · simp [cancel_signal_exists, clear_cancel_signal, List.mem_filter]

theorem cleanup_finally_not_alive (env : ExecEnv) (id : TaskId) (pid : Pid)
    (o : ExecOut) (hk : env.os.killTreeOk pid = true) :
    pid ∉ (cleanup_finally env id pid o).state.alive := by
  unfold cleanup_finally
  dsimp only
  split
  · next h =>
      simp only [kill_process_tree, h, if_true, hk]
      simp [List.mem_filter]
  · next h =>
      intro hmem
      exact h (by simpa [clear_cancel_signal] using List.elem_iff.mpr hmem)

/-- After the pre-spawn checks pass and `Popen` succeeds, the call reduces
to the supervision body over the marker-cleared state. -/
theorem parse_pdf_spawned (env : ExecEnv) (id : TaskId) (s0 : PoolState)
    (pid : Pid)
    (h1 : (env.workerExeFound && !env.workerExeExists) = false)
    (h2 : (!env.workerExeFound && !env.wrapperExists) = false)
    (hsp : env.spawnResult = some pid) :
    parse_pdf_in_process env id s0
      = supervise env id pid (clear_cancel_signal id s0)
          [Event.clearCancel id] := by
  unfold parse_pdf_in_process
  simp [h1, h2, hsp]

/-- Every branch of the supervision body returns through the single
`finally` cleanup. -/
theorem supervise_eq_cleanup (env : ExecEnv) (id : TaskId) (pid : Pid)
    (s : PoolState) (tr : List Event) :
    ∃ mid, supervise env id pid s tr = cleanup_finally env id pid mid := by
  unfold supervise
  cases hb : env.bodyOutcome <;> simp only [hb]
  case asyncCancelled => exact ⟨_, rfl⟩
  case raises => exact ⟨_, rfl⟩
  case completes =>
    split <;> exact ⟨_, rfl⟩

/-- The trace of the supervision body begins with the input trace followed
by the spawn, the registration and the single stderr drain start. -/
theorem supervise_trace_isPrefix (env : ExecEnv) (id : TaskId) (pid : Pid)
    (s : PoolState) (tr : List Event) :
    (tr ++ [Event.spawn pid, Event.register id, Event.startDrain .stderr])
      <+: (supervise env id pid s tr).trace := by
  unfold supervise cleanup_finally
  dsimp only
  cases hb : env.bodyOutcome <;> simp only [hb]
  all_goals repeat' split
  all_goals simp [List.append_assoc, List.prefix_append]

/-- C3: once a child process has been spawned, every exit path of execute —
normal completion, cancellation, or an exception raised while polling —
passes through the single `finally` cleanup, which removes the task's
registry entry, clears its cancellation marker and, when the OS-level tree
kill goes through, leaves no live child process behind. -/
theorem C3_cleanup_on_every_exit (env : ExecEnv) (id : TaskId)
    (s0 : PoolState) (pid : Pid)
    (h1 : (env.workerExeFound && !env.workerExeExists) = false)
    (h2 : (!env.workerExeFound && !env.wrapperExists) = false)
    (hsp : env.spawnResult = some pid)
    (hk : env.os.killTreeOk pid = true) :
    (∃ mid, parse_pdf_in_process env id s0 = cleanup_finally env id pid mid) ∧
    (∀ q, (id, q) ∉ (parse_pdf_in_process env id s0).state.registry) ∧
    cancel_signal_exists id (parse_pdf_in_process env id s0).state = false ∧
    pid ∉ (parse_pdf_in_process env id s0).state.alive := by
  rw [parse_pdf_spawned env id s0 pid h1 h2 hsp]
  obtain ⟨mid, hmid⟩ :=
    supervise_eq_cleanup env id pid (clear_cancel_signal id s0)
      [Event.clearCancel id]
  rw [hmid]
  exact ⟨⟨mid, rfl⟩, cleanup_finally_registry env id pid mid,
    cleanup_finally_no_marker env id pid mid,
    cleanup_finally_not_alive env id pid mid hk⟩

/-- A concrete environment: packaged worker present, spawn yields pid 7,
the body completes, no cancellation anywhere, exit code 0 with a single
success record on stdout. -/
def envBase : ExecEnv :=
  { inputPathExists := true, workerExeFound := true, workerExeExists := true,
    wrapperExists := true, spawnResult := some 7,
    bodyOutcome := .completes, pollIters := 0, cancelSeenInPoll := false,
    markerRaisedDuringRun := false, cancelFlag := false, returncode := 0,
    stdoutLines := [RawLine.jsonLine (Json.obj [("success", Json.bool true)])],
    stderrLines := [], os := ⟨fun _ => true⟩ }

/-- The empty pool state. -/
def pool0 : PoolState :=
  { registry := [], cancelSignals := [], alive := [], logs := [] }

/-- Closed instance of C3 on the exception exit path: the marker is cleared
and the child is gone. -/
theorem C3_cleanup_on_every_exit_witness :
    cancel_signal_exists "t1"
      (parse_pdf_in_process { envBase with bodyOutcome := .raises }
        "t1" pool0).state = false ∧
    7 ∉ (parse_pdf_in_process { envBase with bodyOutcome := .raises }
        "t1" pool0).state.alive := by
  have h := C3_cleanup_on_every_exit { envBase with bodyOutcome := .raises }
    "t1" pool0 7 (by decide) (by decide) (by decide) (by decide)
  exact ⟨h.2.2.1, h.2.2.2⟩

theorem extract_success_record_append (noise : List RawLine) (r : Json)
    (hr : (r.isDict && r.hasKey "success") = true) :
    extract_success_record (noise ++ [RawLine.jsonLine r]) = some r := by
  have hd := (Bool.and_eq_true _ _).mp hr
  unfold extract_success_record
  simp [List.reverse_append, List.findSome?_cons, hd.1, hd.2]

/-- C4: with a clean run (exit 0, no cancellation) whose stdout is any
number of non-parseable diagnostic lines followed by one JSON dict line
with a `success` field, execute scans the lines from the end backward and
returns exactly the record the child emitted. -/
theorem C4_result_roundtrip (env : ExecEnv) (id : TaskId) (s0 : PoolState)
    (pid : Pid) (noise : List RawLine) (r : Json)
    (h1 : (env.workerExeFound && !env.workerExeExists) = false)
    (h2 : (!env.workerExeFound && !env.wrapperExists) = false)
    (hsp : env.spawnResult = some pid)
    (hb : env.bodyOutcome = .completes)
    (hc : env.cancelSeenInPoll = false)
    (hm : env.markerRaisedDuringRun = false)
    (hflag : env.cancelFlag = false)
    (hrc : env.returncode = 0)
    (hlines : env.stdoutLines = noise ++ [RawLine.jsonLine r])
    (_hnoise : ∀ l ∈ noise, l = RawLine.blank ∨ l = RawLine.junk)
    (hr : (r.isDict && r.hasKey "success") = true) :
    (parse_pdf_in_process env id s0).result = ExecResult.childRecord r := by
  have hextract := extract_success_record_append noise r hr
  rw [parse_pdf_spawned env id s0 pid h1 h2 hsp]
  unfold supervise
  simp [hb, hc, hm, hflag, hrc, hlines, hextract, cancel_signal_exists,
    clear_cancel_signal, List.mem_filter]

/-- The terminal record of the spec scenario: success with 3 pages. -/
def rSuccess3 : Json :=
  Json.obj [("success", Json.bool true), ("pages", Json.num 3)]

/-- The clean-run environment whose stdout carries two noise lines and then
the terminal record. -/
def envC4 : ExecEnv :=
  { envBase with
      stdoutLines := [RawLine.junk, RawLine.blank, RawLine.jsonLine rSuccess3] }

/-- Closed instance of C4: two junk lines then the record; the returned
record reports success with 3 pages. -/
theorem C4_result_roundtrip_witness :
    (parse_pdf_in_process envC4 "t1" pool0).result
      = ExecResult.childRecord rSuccess3 ∧
    rSuccess3.getKey "success" = some (Json.bool true) ∧
    rSuccess3.getKey "pages" = some (Json.num 3) := by
  refine ⟨?_, rfl, rfl⟩
  exact C4_result_roundtrip envC4 "t1" pool0 7 [RawLine.junk, RawLine.blank]
    rSuccess3 (by decide) (by decide) (by decide) (by decide) (by decide)
    (by decide) (by decide) (by decide) rfl
    (by
      intro l hl
      simp only [List.mem_cons, List.not_mem_nil, or_false] at hl
      rcases hl with rfl | rfl
      · exact Or.inr rfl
      · exact Or.inl rfl)
    (by decide)

/-- C6 (amended): for a non-zero exit with no cancellation anywhere and no
stdout line carrying an extractable error record, execute returns (never
raises) a structured opaque-failure result whose message carries the
captured exit code; the captured stderr goes to the log sink and is not
attached to the result — the result is independent of it. -/
theorem C6_opaque_failure (env : ExecEnv) (id : TaskId) (s0 : PoolState)
    (pid : Pid)
    (h1 : (env.workerExeFound && !env.workerExeExists) = false)
    (h2 : (!env.workerExeFound && !env.wrapperExists) = false)
    (hsp : env.spawnResult = some pid)
    (hb : env.bodyOutcome = BodyOutcome.completes)
    (hc : env.cancelSeenInPoll = false)
    (hm : env.markerRaisedDuringRun = false)
    (hflag : env.cancelFlag = false)
    (hrc : env.returncode ≠ 0)
    (herr : extract_error_value env.stdoutLines = none) :
    (parse_pdf_in_process env id s0).result
      = ExecResult.parseFailedMsg (default_error_msg env.returncode) ∧
    (∀ t, (parse_pdf_in_process { env with stderrLines := t } id s0).result
      = ExecResult.parseFailedMsg (default_error_msg env.returncode)) := by
  have main : ∀ t,
      (parse_pdf_in_process { env with stderrLines := t } id s0).result
        = ExecResult.parseFailedMsg (default_error_msg env.returncode) := by
    intro t
    rw [parse_pdf_spawned { env with stderrLines := t } id s0 pid h1 h2 hsp]
    unfold supervise
    simp [hb, hc, hm, hflag, hrc, herr, cancel_signal_exists,
      clear_cancel_signal, List.mem_filter, bne_iff_ne]
  exact ⟨main env.stderrLines, main⟩

/-- Environment of a failed run: exit code 3, one unparseable stdout line,
one stderr line reading `boom`. -/
def envC6 : ExecEnv :=
  { envBase with returncode := 3, stdoutLines := [RawLine.junk],
                 stderrLines := [("ERROR", "boom")] }

/-- C6 counterexample: with exit code 3 and trailing stderr `boom`, the
failure message is exactly the exit-code text — no stderr context is
attached — and the result is identical when the stderr stream is empty. -/
theorem C6_counterexample :
    (parse_pdf_in_process envC6 "t1" pool0).result
      = ExecResult.parseFailedMsg "解析进程失败 (exit code: 3)" ∧
    (parse_pdf_in_process { envC6 with stderrLines := [] } "t1" pool0).result
      = (parse_pdf_in_process envC6 "t1" pool0).result :=
  ⟨rfl, rfl⟩

/-- Closed instance of the amended C6 at the concrete failed run. -/
theorem C6_opaque_failure_witness :
    (parse_pdf_in_process envC6 "t1" pool0).result
      = ExecResult.parseFailedMsg (default_error_msg 3) :=
  (C6_opaque_failure envC6 "t1" pool0 7 (by decide) (by decide) (by decide)
    (by decide) (by decide) (by decide) (by decide) (by decide) rfl).1

/-- C1 (amended): the only synchronous pre-spawn rejections in execute are
a missing worker executable (packaged mode), a missing wrapper script (dev
mode), and a failing `Popen`; each returns a failure record with the
registry and process table untouched and only the stale cancellation
marker cleared.  There is no duplicate-task-id or input-path check:
whenever the binary checks pass and the spawn succeeds, a child process is
spawned regardless of the registry contents or of the input path. -/
theorem C1_pre_spawn_checks (env : ExecEnv) (id : TaskId) (s0 : PoolState) :
    (env.workerExeFound = true → env.workerExeExists = false →
      parse_pdf_in_process env id s0
        = ⟨clear_cancel_signal id s0, .workerMissing, [.clearCancel id]⟩) ∧
    (env.workerExeFound = false → env.wrapperExists = false →
      parse_pdf_in_process env id s0
        = ⟨clear_cancel_signal id s0, .wrapperMissing, [.clearCancel id]⟩) ∧
    ((env.workerExeFound && !env.workerExeExists) = false →
     (!env.workerExeFound && !env.wrapperExists) = false →
     env.spawnResult = none →
      parse_pdf_in_process env id s0
        = ⟨clear_cancel_signal id s0, .spawnFailed, [.clearCancel id]⟩) ∧
    ((env.workerExeFound && !env.workerExeExists) = false →
     (!env.workerExeFound && !env.wrapperExists) = false →
     ∀ pid, env.spawnResult = some pid →
       Event.spawn pid ∈ (parse_pdf_in_process env id s0).trace) := by
  refine ⟨?_, ?_, ?_, ?_⟩
  · intro hf he
    unfold parse_pdf_in_process
    simp [hf, he]
  · intro hf he
    unfold parse_pdf_in_process
    simp [hf, he]
  · intro hA hB hn
    unfold parse_pdf_in_process
    simp [hA, hB, hn]
  · intro hA hB pid hsp
    rw [parse_pdf_spawned env id s0 pid hA hB hsp]
    have hpre := supervise_trace_isPrefix env id pid
      (clear_cancel_signal id s0) [Event.clearCancel id]
    exact hpre.subset (by simp)

/-- A pool state in which task `t1` is registered with a live process. -/
def poolBusy : PoolState :=
  { registry := [("t1", 5)], cancelSignals := [], alive := [5], logs := [] }

/-- An environment whose input path does not exist. -/
def envC1 : ExecEnv := { envBase with inputPathExists := false }

/-- C1 counterexample: task `t1` is already registered and the input path
does not exist, yet the call is not rejected — a child process is spawned
and registered anyway. -/
theorem C1_counterexample :
    envC1.inputPathExists = false ∧
    poolBusy.registry.lookup "t1" = some 5 ∧
    Event.spawn 7 ∈ (parse_pdf_in_process envC1 "t1" poolBusy).trace ∧
    Event.register "t1" ∈ (parse_pdf_in_process envC1 "t1" poolBusy).trace := by
  refine ⟨rfl, rfl, ?_, ?_⟩ <;> decide

/-- The packaged-mode environment whose worker executable has vanished. -/
def envC1Missing : ExecEnv := { envBase with workerExeExists := false }

/-- Closed instance of the amended C1: the missing-worker rejection at a
busy pool state. -/
theorem C1_pre_spawn_checks_witness :
    parse_pdf_in_process envC1Missing "t1" poolBusy
      = ⟨clear_cancel_signal "t1" poolBusy, ExecResult.workerMissing,
         [Event.clearCancel "t1"]⟩ :=
  (C1_pre_spawn_checks envC1Missing "t1" poolBusy).1 rfl rfl

/-- Whether an event starts a background drain loop. -/
def isDrainEvent : Event → Bool
  | .startDrain _ => true
  | _ => false

/-- Whether an event collects the exit status or reads stdout. -/
def isWaitOrReadEvent : Event → Bool
  | .waitExit => true
  | .readStdout => true
  | _ => false

theorem filter_replicate_pollIter (p : Event → Bool) (n : Nat)
    (hp : p Event.pollIter = false) :
    (List.replicate n Event.pollIter).filter p = [] := by
  induction n with
  | zero => rfl
  | succ k ih => simp [List.replicate_succ, List.filter_cons, hp, ih]

/-- C2 (amended): after every successful spawn exactly one background
drain loop is started, for stderr only, immediately after registration;
stdout is never drained in the background — the only stdout read happens
right after the child's exit status has been collected. -/
theorem C2_single_drain (env : ExecEnv) (id : TaskId) (s0 : PoolState)
    (pid : Pid)
    (h1 : (env.workerExeFound && !env.workerExeExists) = false)
    (h2 : (!env.workerExeFound && !env.wrapperExists) = false)
    (hsp : env.spawnResult = some pid) :
    (parse_pdf_in_process env id s0).trace.filter isDrainEvent
      = [Event.startDrain .stderr] ∧
    ((parse_pdf_in_process env id s0).trace.filter isWaitOrReadEvent = [] ∨
     (parse_pdf_in_process env id s0).trace.filter isWaitOrReadEvent
       = [Event.waitExit, Event.readStdout]) := by
  rw [parse_pdf_spawned env id s0 pid h1 h2 hsp]
  unfold supervise cleanup_finally
  cases hb : env.bodyOutcome <;> simp only [hb]
  all_goals repeat' split
  all_goals
    simp [List.filter_append, filter_replicate_pollIter, isDrainEvent,
      isWaitOrReadEvent]

/-- C2 counterexample: a concrete clean run starts no stdout drain loop at
all — the trace holds a single drain start, for stderr — and its one
stdout read happens only after the exit status was collected. -/
theorem C2_counterexample :
    (¬ Event.startDrain PipeStream.stdout
        ∈ (parse_pdf_in_process envBase "t1" pool0).trace) ∧
    (parse_pdf_in_process envBase "t1" pool0).trace
      = [Event.clearCancel "t1", Event.spawn 7, Event.register "t1",
         Event.startDrain PipeStream.stderr, Event.waitExit,
         Event.readStdout, Event.unregister "t1", Event.clearCancel "t1"] := by
  decide

/-- Closed instance of the amended C2 at a concrete clean run. -/
theorem C2_single_drain_witness :
    (parse_pdf_in_process envC6 "t1" pool0).trace.filter isDrainEvent
      = [Event.startDrain .stderr] :=
  (C2_single_drain envC6 "t1" pool0 7 (by decide) (by decide) (by decide)).1

/-- C7: the cancellation marker is the first thing cleared by every
execute, before any spawn; a stale marker therefore never causes a
spurious cancellation — a clean completed run reports non-cancelled
whatever marker the initial state holds; and the marker store is durable:
raising marks the id, and a marker survives every store operation except a
clear of that same id. -/
theorem C7_cancel_marker_contract :
    (∀ (env : ExecEnv) (id : TaskId) (s0 : PoolState),
       (parse_pdf_in_process env id s0).trace.head?
         = some (Event.clearCancel id)) ∧
    (∀ (env : ExecEnv) (id : TaskId) (s0 : PoolState) (pid : Pid),
       (env.workerExeFound && !env.workerExeExists) = false →
       (!env.workerExeFound && !env.wrapperExists) = false →
       env.spawnResult = some pid →
       env.bodyOutcome = BodyOutcome.completes →
       env.cancelSeenInPoll = false →
       env.cancelFlag = false →
       env.markerRaisedDuringRun = false →
       (parse_pdf_in_process env id s0).result.isCancelled = false) ∧
    (∀ (id id2 : TaskId) (s : PoolState), id ≠ id2 →
       cancel_signal_exists id (set_cancel_signal id2 s)
         = cancel_signal_exists id s ∧
       cancel_signal_exists id (clear_cancel_signal id2 s)
         = cancel_signal_exists id s) ∧
    (∀ (id : TaskId) (s : PoolState),
       cancel_signal_exists id (set_cancel_signal id s) = true) := by
  refine ⟨?_, ?_, ?_, fun id s => cancel_signal_exists_set_self id s⟩
  · intro env id s0
    unfold parse_pdf_in_process
    dsimp only
    split
    · rfl
    · split
      · rfl
      · split
        · rfl
        · next pid _ =>
            obtain ⟨t, ht⟩ := supervise_trace_isPrefix env id pid
              (clear_cancel_signal id s0) [Event.clearCancel id]
            rw [← ht]
            rfl
  · intro env id s0 pid hA hB hsp hb hc hflag hm
    rw [parse_pdf_spawned env id s0 pid hA hB hsp]
    unfold supervise
    simp [hb, hc, hm, hflag, cancel_signal_exists, clear_cancel_signal,
      List.mem_filter]
    repeat' split
    all_goals simp [ExecResult.isCancelled]
  · intro id id2 s hne
    constructor
    · unfold set_cancel_signal
      split
      · rfl
      · simp [cancel_signal_exists, hne]
    · simp [cancel_signal_exists, clear_cancel_signal, List.mem_filter,
        decide_eq_decide, bne, beq_eq_false_iff_ne.mpr hne]

/-- A pool state carrying a stale cancellation marker for `t1`. -/
def poolStale : PoolState :=
  { registry := [], cancelSignals := ["t1"], alive := [], logs := [] }

/-- Closed instance of C7: the stale marker for `t1` is cleared first (it is
the first trace event), the clean completed run is not reported cancelled
despite the stale marker, and a marker for `t1` survives raising one for
`t2`. -/
theorem C7_cancel_marker_contract_witness :
    (parse_pdf_in_process envBase "t1" poolStale).trace.head?
      = some (Event.clearCancel "t1") ∧
    (parse_pdf_in_process envBase "t1" poolStale).result.isCancelled = false ∧
    cancel_signal_exists "t1" (set_cancel_signal "t2" poolStale)
      = cancel_signal_exists "t1" poolStale :=
  ⟨C7_cancel_marker_contract.1 envBase "t1" poolStale,
   C7_cancel_marker_contract.2.1 envBase "t1" poolStale 7 (by decide)
     (by decide) (by decide) (by decide) (by decide) (by decide) (by decide),
   (C7_cancel_marker_contract.2.2.1 "t1" "t2" poolStale (by decide)).1⟩

end Uverse
